import Mathlib

/-!
Verification of the DAG input-descriptor hierarchy of
`pollination_dsl/dag/inputs.py`.

The Python file defines ten descriptor classes
(`GenericInput`, `StringInput`, `IntegerInput`, `NumberInput`,
`BooleanInput`, `DictInput`, `ListInput`, `FolderInput`, `FileInput`,
`PathInput`) sharing the fields and methods of `_InputBase`.  We embed the
hierarchy as a single structure `Input` carrying a `Variant` tag that
records which class an instance belongs to; the subclass-only fields
`items_type` (declared by `ListInput`) and `extensions` (declared by
`FileInput`, inherited by `PathInput`) are carried on the structure and
the `hasattr` checks of `to_queenbee` become lookups on the tag
(`has_items_type`, `has_extensions`), exactly matching which classes
declare which fields.

Python values reaching the `Any`-typed fields are embedded as `Value`;
Python `None` is `Option.none`; Python dictionaries are insertion-ordered
association lists; Python exceptions raised by the external schema
constructor are an `Except` result.  Because attribute access on the
descriptor returns the stored dictionary object itself,
`annotations = self.annotations or {}` aliases the stored mapping whenever
it is a non-empty dictionary, so `to_queenbee` is modelled with explicit
state passing: it returns the assembled record together with the
descriptor state after the call.
-/

/-- A Python runtime value, as far as this component inspects one: the
types that can populate `default`, `default_local` and annotation values
across the ten variants (strings, ints, floats, bools, dicts, lists).
Floats are embedded as rationals; the component never computes with them,
it only tests truthiness and passes them through. -/
inductive Value where
  | str (s : String)
  | int (n : Int)
  | float (q : Rat)
  | bool (b : Bool)
  | dict (entries : List (String × Value))
  | list (items : List Value)

/-- Python truthiness (`bool(v)`) for the embedded values: empty strings,
zero, `False` and empty containers are falsy. -/
def pyTruthy : Value → Bool
  | .str s => !s.isEmpty
  | .int n => decide (n ≠ 0)
  | .float q => decide (q ≠ 0)
  | .bool b => b
  | .dict d => !d.isEmpty
  | .list l => !l.isEmpty

/-- Truthiness of an optional value: Python `None` is falsy. -/
def pyTruthyOpt : Option Value → Bool
  | some v => pyTruthy v
  | none => false

/-- Python dictionary lookup `d[k]` (as an option) on the
insertion-ordered association-list embedding of a dict. -/
def dictGet : List (String × Value) → String → Option Value
  | [], _ => none
  | (k', v') :: rest, k => if k' = k then some v' else dictGet rest k

/-- Python key-membership test `k in d`. -/
def dictHasKey (d : List (String × Value)) (k : String) : Bool :=
  (dictGet d k).isSome

/-- Python dictionary item assignment `d[k] = v`: an existing key keeps
its position and gets the new value, a new key is appended at the end. -/
def dictSet : List (String × Value) → String → Value → List (String × Value)
  | [], k, v => [(k, v)]
  | (k', v') :: rest, k, v =>
    if k' = k then (k, v) :: rest else (k', v') :: dictSet rest k v

/-- The external `queenbee.io.common.ItemType` enumeration of primitive
item kinds for array inputs; the source only ever names its `String`
member (the default of `ListInput.items_type`), the remaining members are
opaque to this component. -/
inductive ItemType where
  | Generic
  | String
  | Integer
  | Number
  | Boolean
  | Folder
  | JSONObject
  | Array
deriving DecidableEq

/-- Modelled from the spec: the alias-record type
(`pollination_dsl.alias.inputs.InputAliasTypes`, not part of the provided
source) is polymorphic over platform-specific variants, each exposing its
own `to_queenbee()` conversion to a plain mapping; this component treats
alias entries as opaque values it merely collects and delegates, so an
entry is embedded by the mapping its conversion produces. -/
structure AliasEntry where
  qb_dict : List (String × Value)

/-- The composite Python call `al.to_queenbee().dict()` performed on each
alias entry while assembling the record. -/
def AliasEntry.to_queenbee_dict (al : AliasEntry) : List (String × Value) :=
  al.qb_dict

/-- Which of the ten descriptor classes an instance belongs to. -/
inductive Variant where
  | generic
  | string
  | integer
  | number
  | boolean
  | dict
  | list
  | folder
  | file
  | path
deriving DecidableEq

/-- `hasattr(self, 'extensions')`: only `FileInput` declares the
`extensions` field and `PathInput` inherits it; no other class has it. -/
def has_extensions : Variant → Bool
  | .file => true
  | .path => true
  | _ => false

/-- `hasattr(self, 'items_type')`: only `ListInput` declares the
`items_type` field. -/
def has_items_type : Variant → Bool
  | .list => true
  | _ => false

/-- A DAG input descriptor: the stored fields shared by all ten classes
(`annotations`, `description`, `default`, `default_local`, `spec`,
`alias`, `optional`), the class tag, and the subclass-only fields
`items_type` and `extensions` (consulted only when the tag declares
them).  The per-variant narrowing of `default`/`default_local` to a
specific Python type does not affect any of the logic in the source,
which only tests `is not None` and truthiness, so the fields are embedded
uniformly at `Option Value`. -/
structure Input where
  variant : Variant
  annotations : Option (List (String × Value)) := none
  description : Option String := none
  default : Option Value := none
  default_local : Option Value := none
  spec : Option (List (String × Value)) := none
  «alias» : List AliasEntry := []
  optional : Bool := false
  items_type : ItemType := ItemType.String
  extensions : Option (List String) := none

/-- The `empty_list_alias` validator of `_InputBase`:
`return v if v is not None else []`. -/
def empty_list_alias (v : Option (List AliasEntry)) : List AliasEntry :=
  match v with
  | some l => l
  | none => []

/-- Construction of a descriptor from keyword arguments (`none` = the
argument was not supplied): the field defaults of the Python classes
(`optional = False`, `items_type = Field(ItemType.String, ...)`) fill
unsupplied arguments, and the `alias` argument passes through the
`empty_list_alias` validator, which runs `always`, so `alias` is stored
as a list even when absent. -/
def construct (variant : Variant)
    (annotations : Option (List (String × Value)))
    (description : Option String)
    (default : Option Value)
    (default_local : Option Value)
    (spec : Option (List (String × Value)))
    («alias» : Option (List AliasEntry))
    (optional : Option Bool)
    (items_type : Option ItemType)
    (extensions : Option (List String)) : Input :=
  { variant := variant
    annotations := annotations
    description := description
    default := default
    default_local := default_local
    spec := spec
    «alias» := empty_list_alias «alias»
    optional := optional.getD false
    items_type := items_type.getD ItemType.String
    extensions := extensions }

/-- The `required` property of `_InputBase`: `False` if `self.optional`,
`False` if `self.default is not None`, otherwise `True`. -/
def Input.required (inp : Input) : Bool :=
  if inp.optional then false
  else if inp.default.isSome then false
  else true

/-- The `is_artifact` property: `_InputBase` returns `False`;
`FolderInput` overrides it to `True` and `FileInput` and `PathInput`
inherit the override. -/
def Input.is_artifact (inp : Input) : Bool :=
  match inp.variant with
  | .folder => true
  | .file => true
  | .path => true
  | _ => false

/-- The `reference_type` property: `_InputBase` returns
`InputReference`; `FolderInput`, `FileInput` and `PathInput` override it. -/
def Input.reference_type (inp : Input) : String :=
  match inp.variant with
  | .folder => "InputFolderReference"
  | .file => "InputFileReference"
  | .path => "InputPathReference"
  | _ => "InputReference"

/-- Python `name.replace('_', '-')`: every occurrence of the
one-character substring `_` is replaced by `-`, which for a
one-character pattern is the character-wise map. -/
def replace_underscores (name : String) : String :=
  ⟨name.data.map (fun c => if c = '_' then '-' else c)⟩

/-- The `data` dictionary assembled by `to_queenbee` and handed to the
external schema constructor `func.parse_obj`.  The keys `extensions` and
`items_type` are present only when the corresponding `hasattr` check
succeeds, so they are doubly optional: the outer option is key presence
in the dictionary, the inner value is the stored field (itself possibly
`None`). -/
structure QbData where
  required : Bool
  name : String
  default : Option Value
  description : Option String
  annotations : List (String × Value)
  spec : Option (List (String × Value))
  «alias» : List (List (String × Value))
  extensions : Option (Option (List String))
  items_type : Option ItemType

/-- The `to_queenbee` method of `_InputBase`, with the descriptor state
passed explicitly.  `annotations = self.annotations or {}` yields the
stored dictionary object itself when it is truthy (non-empty) and a
fresh empty dictionary otherwise; the subsequent item assignment
`annotations['__default_local__'] = self.default_local` (performed when
`self.default_local` is truthy) therefore mutates the stored mapping
exactly when the stored mapping is non-empty.  The returned pair is
(the assembled record, the descriptor after the call). -/
def Input.to_queenbee (inp : Input) (name : String) : QbData × Input :=
  let stored := inp.annotations.getD []
  let ann :=
    match inp.default_local with
    | some v => if pyTruthy v then dictSet stored "__default_local__" v else stored
    | none => stored
  let data : QbData :=
    { required := inp.required
      name := replace_underscores name
      default := inp.default
      description := inp.description
      annotations := ann
      spec := inp.spec
      «alias» := inp.«alias».map AliasEntry.to_queenbee_dict
      extensions := if has_extensions inp.variant then some inp.extensions else none
      items_type := if has_items_type inp.variant then some inp.items_type else none }
  let mutated := !stored.isEmpty && pyTruthyOpt inp.default_local
  (data, if mutated then { inp with annotations := some ann } else inp)

/-- The final step of `to_queenbee`: `return func.parse_obj(data)`.  The
external schema constructor mapped to this variant by `_inputs_mapper` is
an arbitrary function `parse` that either returns the validated schema
object or raises (`Except.error`); the method wraps it in no handler, so
its outcome is returned as-is. -/
def Input.to_queenbee_parsed {E R : Type} (parse : QbData → Except E R)
    (inp : Input) (name : String) : Except E R × Input :=
  let r := inp.to_queenbee name
  (parse r.1, r.2)

/-! ## Helper lemmas about the dictionary embedding -/

/-- Looking up the key just assigned returns the assigned value. -/
theorem dictGet_dictSet_self (d : List (String × Value)) (k : String) (v : Value) :
    dictGet (dictSet d k v) k = some v := by
  induction d with
  | nil => simp [dictSet, dictGet]
  | cons p rest ih =>
    obtain ⟨k', v'⟩ := p
    by_cases h : k' = k
    · simp [dictSet, dictGet, h]
    · simp [dictSet, dictGet, h, ih]

/-- Assigning the same key/value twice equals assigning it once. -/
theorem dictSet_dictSet_same (d : List (String × Value)) (k : String) (v : Value) :
    dictSet (dictSet d k v) k v = dictSet d k v := by
  induction d with
  | nil => simp [dictSet]
  | cons p rest ih =>
    obtain ⟨k', v'⟩ := p
    by_cases h : k' = k
    · simp [dictSet, h]
    · simp [dictSet, h, ih]

/-- A dictionary is non-empty after an item assignment. -/
theorem dictSet_isEmpty (d : List (String × Value)) (k : String) (v : Value) :
    (dictSet d k v).isEmpty = false := by
  cases d with
  | nil => rfl
  | cons p rest =>
    obtain ⟨k', v'⟩ := p
    by_cases h : k' = k <;> simp [dictSet, h]

/-! ## Claim theorems -/

/-- Claim C1: For every input descriptor (all ten variants), `required` is
false when `optional` is true regardless of `default`, false when
`optional` is false and `default` is set (even to a falsy value, since
the source tests `is not None`), and true exactly when `optional` is
false and `default` is unset. -/
theorem required_characterization (inp : Input) :
    inp.required = (!inp.optional && inp.default.isNone) ∧
    (inp.required = true ↔ inp.optional = false ∧ inp.default = none) := by
  obtain ⟨var, ann, desc, dflt, dl, sp, al, opt, it, ex⟩ := inp
  cases opt <;> cases dflt <;> simp [Input.required]

/-- Claim C4: the record produced by `to_queenbee name` carries `name`
with every underscore replaced by a hyphen and all other characters (and
the length) unchanged; in particular `to_queenbee "my_input"` yields the
name `"my-input"`. -/
theorem to_queenbee_name_normalization (inp : Input) (name : String) :
    (inp.to_queenbee name).1.name.data
      = name.data.map (fun c => if c = '_' then '-' else c) ∧
    (inp.to_queenbee name).1.name.data.length = name.data.length ∧
    ((⟨Variant.generic, none, none, none, none, none, [], false,
        ItemType.String, none⟩ : Input).to_queenbee "my_input").1.name
      = "my-input" := by
  refine ⟨rfl, ?_, rfl⟩
  show (name.data.map (fun c => if c = '_' then '-' else c)).length
    = name.data.length
  simp

/-- Claim C6: after construction the `alias` field is always a list:
when the argument is not supplied (or `None`), it is stored as the empty
list, and a supplied list is stored as given. -/
theorem alias_always_list (variant : Variant)
    (annotations : Option (List (String × Value))) (description : Option String)
    (default default_local : Option Value) (spec : Option (List (String × Value)))
    (optional : Option Bool) (items_type : Option ItemType)
    (extensions : Option (List String)) :
    (construct variant annotations description default default_local spec
        none optional items_type extensions).«alias» = [] ∧
    ∀ l, (construct variant annotations description default default_local spec
        (some l) optional items_type extensions).«alias» = l := by
  exact ⟨rfl, fun l => rfl⟩

/-- Claim C7: `is_artifact` is true exactly for the Folder, File and
Path variants and false for the other seven, for every instance
regardless of its field values. -/
theorem is_artifact_characterization (inp : Input) :
    inp.is_artifact = true ↔
      inp.variant = Variant.folder ∨ inp.variant = Variant.file ∨
      inp.variant = Variant.path := by
  obtain ⟨var, ann, desc, dflt, dl, sp, al, opt, it, ex⟩ := inp
  cases var <;> simp [Input.is_artifact]

/-- Claim C8: the assembled record carries an `items_type` key exactly
for the List variant, equal to the stored `items_type`, and construction
without an `items_type` argument stores the `String` item kind. -/
theorem items_type_in_record (inp : Input) (name : String)
    (annotations : Option (List (String × Value))) (description : Option String)
    (default default_local : Option Value) (spec : Option (List (String × Value)))
    (a : Option (List AliasEntry)) (optional : Option Bool)
    (extensions : Option (List String)) :
    ((inp.to_queenbee name).1.items_type
      = if inp.variant = Variant.list then some inp.items_type else none) ∧
    (construct Variant.list annotations description default default_local spec
        a optional none extensions).items_type = ItemType.String := by
  constructor
  · obtain ⟨var, ann, desc, dflt, dl, sp, al, opt, it, ex⟩ := inp
    cases var <;> simp [Input.to_queenbee, has_items_type]
  · rfl

/-- Claim C9: the assembled record carries an `extensions` key exactly
for the File and Path variants (with the stored value, so in particular
whenever `extensions` is set), and for no other variant. -/
theorem extensions_in_record (inp : Input) (name : String) :
    (inp.to_queenbee name).1.extensions =
      if inp.variant = Variant.file ∨ inp.variant = Variant.path
      then some inp.extensions else none := by
  obtain ⟨var, ann, desc, dflt, dl, sp, al, opt, it, ex⟩ := inp
  cases var <;> simp [Input.to_queenbee, has_extensions]

/-- A descriptor whose user-supplied annotations already contain the
reserved key `__default_local__`, and whose `default_local` is unset. -/
def pre_annotated_input : Input :=
  ⟨Variant.generic, some [("__default_local__", Value.int 1)], none, none,
    none, none, [], false, ItemType.String, none⟩

/-- Claim C3 counterexample: on `pre_annotated_input`, `default_local` is
unset yet the record produced by `to_queenbee` does contain the key
`__default_local__` in its annotations, because the stored annotations
mapping already contained it and `to_queenbee` never removes it. -/
theorem default_local_unset_key_present :
    pre_annotated_input.default_local = none ∧
    dictHasKey ((pre_annotated_input.to_queenbee "x").1.annotations)
      "__default_local__" = true :=
  ⟨rfl, by decide⟩

/-- Claim C3 (amended): when `default_local` is set to a truthy value the
record's annotations bind `__default_local__` to that exact value; when
`default_local` is unset the record's annotations equal the stored
annotations mapping (or the empty mapping), so the key is absent provided
the stored annotations did not already contain it. -/
theorem default_local_annotation_injection (inp : Input) (name : String) :
    (∀ v, inp.default_local = some v → pyTruthy v = true →
      dictGet ((inp.to_queenbee name).1.annotations) "__default_local__"
        = some v) ∧
    (inp.default_local = none →
      (inp.to_queenbee name).1.annotations = inp.annotations.getD []) := by
  constructor
  · intro v h1 h2
    simp [Input.to_queenbee, h1, h2, dictGet_dictSet_self]
  · intro h
    simp [Input.to_queenbee, h]

/-- A String descriptor whose `default_local` is the truthy value
`"loc"` and whose annotations are unset. -/
def truthy_local_input : Input :=
  ⟨Variant.string, none, none, none, some (Value.str "loc"), none, [],
    false, ItemType.String, none⟩

/-- Witness for C3 (amended) at concrete inputs: the injected binding is
observed when `default_local = "loc"`, and the annotations stay empty
when `default_local` is unset and no annotations were stored. -/
theorem default_local_annotation_injection_witness :
    dictGet ((truthy_local_input.to_queenbee "x").1.annotations)
      "__default_local__" = some (Value.str "loc") ∧
    ((⟨Variant.string, none, none, none, none, none, [], false,
        ItemType.String, none⟩ : Input).to_queenbee "x").1.annotations
      = [] :=
  ⟨(default_local_annotation_injection truthy_local_input "x").1
      (Value.str "loc") rfl rfl,
   (default_local_annotation_injection
      ⟨Variant.string, none, none, none, none, none, [], false,
        ItemType.String, none⟩ "x").2 rfl⟩

/-- A Boolean descriptor whose `default_local` is the falsy value
`False` and whose stored annotations already contain the reserved key. -/
def falsy_local_input : Input :=
  ⟨Variant.boolean, some [("__default_local__", Value.int 1)], none, none,
    some (Value.bool false), none, [], false, ItemType.String, none⟩

/-- Claim C10 counterexample: on `falsy_local_input`, `default_local` is
set to the falsy value `False`, yet the record's annotations do contain
the key `__default_local__`, inherited from the stored annotations
mapping. -/
theorem falsy_default_local_key_present :
    falsy_local_input.default_local = some (Value.bool false) ∧
    pyTruthy (Value.bool false) = false ∧
    dictHasKey ((falsy_local_input.to_queenbee "x").1.annotations)
      "__default_local__" = true :=
  ⟨rfl, rfl, by decide⟩

/-- Claim C10 (amended): when `default_local` is set to a falsy value of
its type, no injection happens — the record's annotations equal the
stored annotations mapping (or the empty mapping), so `__default_local__`
is absent provided the stored annotations did not already contain it;
the injection check is thus by truthiness of `default_local`, unlike
`required`, which tests presence of `default`. -/
theorem falsy_default_local_no_injection (inp : Input) (name : String)
    (v : Value) (h1 : inp.default_local = some v)
    (h2 : pyTruthy v = false) :
    (inp.to_queenbee name).1.annotations = inp.annotations.getD [] ∧
    (dictHasKey (inp.annotations.getD []) "__default_local__" = false →
      dictHasKey ((inp.to_queenbee name).1.annotations) "__default_local__"
        = false) := by
  have h3 : (inp.to_queenbee name).1.annotations = inp.annotations.getD [] := by
    simp [Input.to_queenbee, h1, h2]
  exact ⟨h3, fun h => h3 ▸ h⟩

/-- Witness for C10 (amended) at a concrete input: a Boolean descriptor
with unset annotations and `default_local = False` produces a record with
empty annotations, hence without the reserved key. -/
theorem falsy_default_local_no_injection_witness :
    ((⟨Variant.boolean, none, none, none, some (Value.bool false), none,
        [], false, ItemType.String, none⟩ : Input).to_queenbee "x").1.annotations
      = [] ∧
    dictHasKey (((⟨Variant.boolean, none, none, none,
        some (Value.bool false), none, [], false, ItemType.String,
        none⟩ : Input).to_queenbee "x").1.annotations) "__default_local__"
      = false :=
  ⟨(falsy_default_local_no_injection
      ⟨Variant.boolean, none, none, none, some (Value.bool false), none,
        [], false, ItemType.String, none⟩ "x" (Value.bool false) rfl rfl).1,
   (falsy_default_local_no_injection
      ⟨Variant.boolean, none, none, none, some (Value.bool false), none,
        [], false, ItemType.String, none⟩ "x" (Value.bool false) rfl rfl).2
      rfl⟩

/-- Claim C5: the outcome of the external schema constructor is returned
as-is — when it fails, `to_queenbee` fails with exactly that error (there
is no handler in the method), and the component itself performs no
validation or coercion: the `default` it hands to the constructor is the
stored `default`, unchanged. -/
theorem validation_error_propagates {E R : Type} (parse : QbData → Except E R)
    (inp : Input) (name : String) (e : E)
    (h : parse (inp.to_queenbee name).1 = Except.error e) :
    (Input.to_queenbee_parsed parse inp name).1 = Except.error e ∧
    (inp.to_queenbee name).1.default = inp.default :=
  ⟨h, rfl⟩

/-- An external constructor that rejects every record with a validation
error, standing in for `DAGIntegerInput.parse_obj` on a record whose
`default` is a string. -/
def rejecting_parse : QbData → Except String Unit :=
  fun _ => Except.error "ValidationError"

/-- Witness for C5 at a concrete input: an Integer-variant descriptor
carrying the string default `"five"`, converted through a constructor
that raises, yields exactly that error. -/
theorem validation_error_propagates_witness :
    (Input.to_queenbee_parsed rejecting_parse
      ⟨Variant.integer, none, none, some (Value.str "five"), none, none,
        [], false, ItemType.String, none⟩ "x").1
      = Except.error "ValidationError" :=
  (validation_error_propagates rejecting_parse
    ⟨Variant.integer, none, none, some (Value.str "five"), none, none,
      [], false, ItemType.String, none⟩ "x" "ValidationError" rfl).1

/-- A Generic descriptor with a non-empty stored annotations mapping and
a truthy `default_local`: the configuration on which
`annotations = self.annotations or {}` aliases the stored mapping and the
subsequent item assignment mutates it. -/
def shared_annotations_input : Input :=
  ⟨Variant.generic, some [("a", Value.str "b")], none, none,
    some (Value.str "x"), none, [], false, ItemType.String, none⟩

/-- Claim C2 counterexample: calling `to_queenbee` on
`shared_annotations_input` changes the descriptor's stored `annotations`
mapping — the reserved key `__default_local__` is appended to it through
the aliased dictionary — so the descriptor after the call differs from
the descriptor before it. -/
theorem to_queenbee_mutates_stored_annotations :
    shared_annotations_input.annotations = some [("a", Value.str "b")] ∧
    (shared_annotations_input.to_queenbee "n").2.annotations
      = some [("a", Value.str "b"), ("__default_local__", Value.str "x")] ∧
    (shared_annotations_input.to_queenbee "n").2 ≠ shared_annotations_input := by
  refine ⟨rfl, rfl, fun h => ?_⟩
  have h2 := congrArg Input.annotations h
  rw [show (shared_annotations_input.to_queenbee "n").2.annotations
        = some [("a", Value.str "b"), ("__default_local__", Value.str "x")]
      from rfl] at h2
  simp [shared_annotations_input] at h2

/-- All stored fields other than `annotations` are unchanged by a
`to_queenbee` call. -/
theorem to_queenbee_preserves_other_fields (inp : Input) (name : String) :
    (inp.to_queenbee name).2.variant = inp.variant ∧
    (inp.to_queenbee name).2.description = inp.description ∧
    (inp.to_queenbee name).2.default = inp.default ∧
    (inp.to_queenbee name).2.default_local = inp.default_local ∧
    (inp.to_queenbee name).2.spec = inp.spec ∧
    (inp.to_queenbee name).2.«alias» = inp.«alias» ∧
    (inp.to_queenbee name).2.optional = inp.optional ∧
    (inp.to_queenbee name).2.items_type = inp.items_type ∧
    (inp.to_queenbee name).2.extensions = inp.extensions := by
  obtain ⟨var, ann, desc, dflt, dl, sp, al, opt, it, ex⟩ := inp
  simp only [Input.to_queenbee]
  split <;> simp

/-- The stored annotations after a `to_queenbee` call: they become the
record's annotations when the stored mapping was non-empty and
`default_local` truthy, and are untouched otherwise. -/
theorem to_queenbee_annotations_after (inp : Input) (name : String) :
    (inp.to_queenbee name).2.annotations =
      if !(inp.annotations.getD []).isEmpty && pyTruthyOpt inp.default_local
      then some (inp.to_queenbee name).1.annotations
      else inp.annotations := by
  obtain ⟨var, ann, desc, dflt, dl, sp, al, opt, it, ex⟩ := inp
  simp only [Input.to_queenbee]
  split <;> simp_all

/-- A second `to_queenbee` call on the post-call descriptor returns the
same record and the same descriptor state as the first call. -/
theorem to_queenbee_second_call (inp : Input) (name : String) :
    (inp.to_queenbee name).2.to_queenbee name = inp.to_queenbee name := by
  obtain ⟨var, ann, desc, dflt, dl, sp, al, opt, it, ex⟩ := inp
  cases dl with
  | none => simp [Input.to_queenbee, pyTruthyOpt]
  | some v =>
    by_cases hv : pyTruthy v
    · cases ann with
      | none => simp [Input.to_queenbee, pyTruthyOpt, hv]
      | some d =>
        cases d with
        | nil => simp [Input.to_queenbee, pyTruthyOpt, hv]
        | cons p rest =>
          simp [Input.to_queenbee, pyTruthyOpt, hv, Input.required,
            dictSet_dictSet_same, dictSet_isEmpty]
    · simp [Input.to_queenbee, pyTruthyOpt, hv]

/-- Claim C2 (amended): `to_queenbee` leaves every stored field except
`annotations` unchanged; the stored annotations mapping is changed (to
the record's annotations, which append the reserved key
`__default_local__`) exactly when it was non-empty and `default_local`
is truthy, an aliasing effect, and is untouched otherwise; and repeated
calls with the same name produce the same record, the state reached
after one call being a fixed point. -/
theorem to_queenbee_frame_and_idempotence (inp : Input) (name : String) :
    ((inp.to_queenbee name).2.variant = inp.variant ∧
     (inp.to_queenbee name).2.description = inp.description ∧
     (inp.to_queenbee name).2.default = inp.default ∧
     (inp.to_queenbee name).2.default_local = inp.default_local ∧
     (inp.to_queenbee name).2.spec = inp.spec ∧
     (inp.to_queenbee name).2.«alias» = inp.«alias» ∧
     (inp.to_queenbee name).2.optional = inp.optional ∧
     (inp.to_queenbee name).2.items_type = inp.items_type ∧
     (inp.to_queenbee name).2.extensions = inp.extensions) ∧
    ((inp.to_queenbee name).2.annotations =
      if !(inp.annotations.getD []).isEmpty && pyTruthyOpt inp.default_local
      then some (inp.to_queenbee name).1.annotations
      else inp.annotations) ∧
    (inp.to_queenbee name).2.to_queenbee name = inp.to_queenbee name :=
  ⟨to_queenbee_preserves_other_fields inp name,
   to_queenbee_annotations_after inp name,
   to_queenbee_second_call inp name⟩
